import Mathlib

/-!
Verification development for the radar grid backend
(`src/backend/grid_backend.py`).

The byte-level pipeline — frame synchronization over a serial byte
stream, TLV decoding, track-record decoding and grid coordinate
mapping — is shallowly embedded here.  Bytes are modelled as `Nat`
(values below 256 on the wire), buffers as `List Nat`, and the
floating-point quantities of the source (IEEE-754 binary32 record
fields, Python float arithmetic) are modelled exactly over `ℚ`; the
rounding of double-precision arithmetic is far below the precision at
which any stated property is decided, and every concrete byte input
used below decodes to a dyadic rational that binary32/binary64
represent exactly.
-/

/-- The fixed 8-byte frame marker, `MAGIC_WORD` in the source. -/
def MAGIC_WORD : List Nat := [0x02, 0x01, 0x04, 0x03, 0x06, 0x05, 0x08, 0x07]

/-- Little-endian value of a byte list (least significant byte first),
the integer-decoding convention of `struct.unpack('<...')`. -/
def decodeLE : List Nat → Nat
  | [] => 0
  | b :: rest => b + 256 * decodeLE rest

/-- Unsigned 64-bit little-endian decode of the first 8 bytes. -/
def u64le (bs : List Nat) : Nat := decodeLE (bs.take 8)

/-- Unsigned 32-bit little-endian decode of the 4 bytes at offset `off`. -/
def u32le_at (bs : List Nat) (off : Nat) : Nat := decodeLE ((bs.drop off).take 4)

/-- The expected numeric magic value checked at line 155 of the source. -/
def MAGIC_VALUE : Nat := 0x0708050603040102

/-- Size of `HEADER_STRUCT = struct.Struct('<Q8I')`: 8 + 8*4 = 40 bytes. -/
def HEADER_LEN : Nat := 40

/-- Does the buffer begin with the 8-byte magic marker? -/
def isMarkerAt (bs : List Nat) : Bool := bs.take 8 == MAGIC_WORD

/-- Index of the first occurrence of the magic marker, `buffer.find(MAGIC_WORD)`
in the source (`none` models the return value `-1`). -/
def findMarker : List Nat → Option Nat
  | [] => none
  | b :: rest =>
    if isMarkerAt (b :: rest) then some 0
    else (findMarker rest).map (· + 1)

/-- Outcome of one iteration of the synchronizer loop body
(`_read_from_serial_port`, lines 136-173), excluding the serial read. -/
inductive SyncOutcome where
  /-- no magic word found; buffer trimmed to its last 1024 bytes if longer -/
  | noMarker
  /-- marker found but fewer than `HEADER_LEN` bytes follow -/
  | needHeader
  /-- decoded magic mismatched the expected constant; one byte dropped -/
  | resync
  /-- header decoded but fewer than `totalPacketLen` bytes available -/
  | needFrame
  /-- a frame of exactly `totalPacketLen` bytes was sliced off the buffer -/
  | frame (f : List Nat)
deriving DecidableEq, Repr

/-- One iteration of the synchronizer loop body of
`_read_from_serial_port` (lines 136-173): locate the magic word, drop
the bytes before it, validate the 40-byte header's magic value, and
slice off `totalPacketLen` bytes once available.  Returns the outcome
together with the buffer left for the next iteration. -/
def syncStep (buffer : List Nat) : SyncOutcome × List Nat :=
  match findMarker buffer with
  | none =>
    (SyncOutcome.noMarker,
      if 1024 < buffer.length then buffer.drop (buffer.length - 1024) else buffer)
  | some idx =>
    let b := buffer.drop idx
    if b.length < HEADER_LEN then (SyncOutcome.needHeader, b)
    else if u64le b ≠ MAGIC_VALUE then (SyncOutcome.resync, b.drop 1)
    else
      let totalPacketLen := u32le_at b 12
      if b.length < totalPacketLen then (SyncOutcome.needFrame, b)
      else (SyncOutcome.frame (b.take totalPacketLen), b.drop totalPacketLen)

/-- Buffer left after `n` iterations of the synchronizer loop with no
new serial input. -/
def syncRun : Nat → List Nat → List Nat
  | 0, b => b
  | n + 1, b => syncRun n (syncStep b).2

/-- Frames extracted during `n` iterations of the synchronizer loop
with no new serial input. -/
def syncFramesRun : Nat → List Nat → List (List Nat)
  | 0, _ => []
  | n + 1, b =>
    (match (syncStep b).1 with
     | SyncOutcome.frame f => [f]
     | _ => []) ++ syncFramesRun n (syncStep b).2

/-- The synchronizer, started on this buffer with no further input,
never extracts any frame, however many iterations it runs. -/
def neverExtracts (b : List Nat) : Prop := ∀ n, syncFramesRun n b = []

/-- A well-formed frame as the wire format defines it: begins with the
magic marker, its header's `totalPacketLen` field (bytes 12-15) equals
its exact byte length, and it is at least `HEADER_LEN` bytes long. -/
def ValidFrame (F : List Nat) : Prop :=
  F.take 8 = MAGIC_WORD ∧ u32le_at F 12 = F.length ∧ 40 ≤ F.length

instance (F : List Nat) : Decidable (ValidFrame F) := by
  unfold ValidFrame; exact inferInstance

/-- Run synchronizer iterations on a buffer until an iteration neither
extracts a frame nor resynchronizes, collecting the extracted frames;
`fuel` bounds the number of iterations.  This models the fact that the
reading loop keeps iterating on the buffered bytes between serial
reads. -/
def drainBuffer : Nat → List Nat → List (List Nat) × List Nat
  | 0, b => ([], b)
  | n + 1, b =>
    match syncStep b with
    | (SyncOutcome.frame f, b') =>
      let r := drainBuffer n b'
      (f :: r.1, r.2)
    | (SyncOutcome.resync, b') => drainBuffer n b'
    | (_, b') => ([], b')

/-- Feed a list of byte chunks to the synchronizer one after the other,
draining the buffer after each chunk: the partial-delivery behaviour of
the reading loop, where each `ser.read` may return arbitrarily few
bytes. -/
def feedChunks : List (List Nat) → List Nat → List (List Nat) × List Nat
  | [], b => ([], b)
  | c :: rest, b =>
    let b1 := b ++ c
    let r1 := drainBuffer (b1.length + 1) b1
    let r2 := feedChunks rest r1.2
    (r1.1 ++ r2.1, r2.2)

/-- Value of an IEEE-754 binary32 number given by 4 little-endian bytes,
as an exact rational (`struct.unpack('<f', ...)` for finite values;
the non-finite encodings with exponent 255 do not arise in any input
considered here). -/
def f32val (bs : List Nat) : ℚ :=
  let w : Nat := decodeLE (bs.take 4)
  let s : ℚ := if w / 2 ^ 31 % 2 = 1 then -1 else 1
  let e : Nat := w / 2 ^ 23 % 2 ^ 8
  let m : Nat := w % 2 ^ 23
  if e = 0 then s * (m : ℚ) / 2 ^ 149
  else s * ((2 ^ 23 + m : Nat) : ℚ) * 2 ^ e / 2 ^ 150

/-- One decoded track record: the columns of the `targets` row filled in
by `parse_track_tlv` (lines 238-249).  Column 0 holds the `u32` target
id, the remaining used columns hold binary32 fields. -/
structure Track where
  id : Nat
  posX : ℚ
  posY : ℚ
  posZ : ℚ
  velX : ℚ
  velY : ℚ
  velZ : ℚ
  accX : ℚ
  accY : ℚ
  accZ : ℚ
  g : ℚ
  conf : ℚ
deriving DecidableEq, Repr

/-- Decode one 112-byte record of layout `'I27f'` (u32 id followed by 27
binary32 fields).  `targetData[26]` is float index 25 (byte offset 104)
and `targetData[27]`, the confidence, is float index 26 (byte offset
108), exactly as the source stores them into columns 10 and 11. -/
def parse_track_record (bs : List Nat) : Track :=
  { id := u32le_at bs 0
    posX := f32val ((bs.drop 4).take 4)
    posY := f32val ((bs.drop 8).take 4)
    posZ := f32val ((bs.drop 12).take 4)
    velX := f32val ((bs.drop 16).take 4)
    velY := f32val ((bs.drop 20).take 4)
    velZ := f32val ((bs.drop 24).take 4)
    accX := f32val ((bs.drop 28).take 4)
    accY := f32val ((bs.drop 32).take 4)
    accZ := f32val ((bs.drop 36).take 4)
    g := f32val ((bs.drop 104).take 4)
    conf := f32val ((bs.drop 108).take 4) }

/-- Decode `n` consecutive 112-byte records.  The Boolean is `false` as
soon as some record's `struct.unpack` fails, which happens exactly when
fewer than 112 bytes remain (`tlvData[:112]` then yields a short slice).
The returned list holds the records decoded before the failure; in the
source the remaining rows of the preallocated `np.empty` array stay
uninitialized, and the array is never consumed when the reported count
is 0. -/
def trackRecordsGo : Nat → List Nat → Bool × List Track
  | 0, _ => (true, [])
  | n + 1, data =>
    if data.length < 112 then (false, [])
    else
      let r := trackRecordsGo n (data.drop 112)
      (r.1, parse_track_record (data.take 112) :: r.2)

/-- `parse_track_tlv` (lines 224-254): the expected record count is
`tlvLength / 112` (integer division); on any per-record decode failure
the function returns count 0 (`return 0, targets`), otherwise the full
expected count together with the decoded records. -/
def parse_track_tlv (tlvData : List Nat) (tlvLength : Nat) : Nat × List Track :=
  let n := tlvLength / 112
  let r := trackRecordsGo n tlvData
  if r.1 then (n, r.2) else (0, r.2)

/-- Mutable grid-geometry fields of `GridBackend` (lines 28-33), all
zero-initialized in `__init__`. -/
structure GridState where
  x_min : ℚ
  x_max : ℚ
  y_min : ℚ
  y_max : ℚ
  nx : Int
  ny : Int
deriving DecidableEq, Repr

/-- The initial backend state: every grid field is 0. -/
def initState : GridState := ⟨0, 0, 0, 0, 0, 0⟩

/-- A grid configuration request, the `cfg` dict taken by `create_grid`. -/
structure GridCfg where
  x_min : ℚ
  x_max : ℚ
  y_min : ℚ
  y_max : ℚ
  dx : ℚ
  dy : ℚ
deriving DecidableEq, Repr

/-- Python `int()` applied to a real value: truncation toward zero. -/
def pyInt (q : ℚ) : Int := if q < 0 then -⌊-q⌋ else ⌊q⌋

/-- Observable outcome of a `create_grid` call. -/
inductive CreateGridOutcome where
  /-- rejected with `print("Invalid cell size")` -/
  | invalidCellSize
  /-- rejected with `print("Invalid range")` -/
  | invalidRange
  /-- rejected with `print("Invalid grid size")` -/
  | invalidGridSize
  /-- an all-zero grid of shape `(ny, nx)` was emitted on `grid_ready` -/
  | gridEmitted (ny nx : Int)
deriving DecidableEq, Repr

/-- `create_grid` (lines 36-69).  Exactly as in the source, the bounds
fields `x_min, x_max, y_min, y_max` are assigned from the request
*before* any validation runs, and `nx, ny` are assigned before the
final `nx <= 0 or ny <= 0` check; a rejected request therefore leaves
the state partially overwritten. -/
def create_grid (st : GridState) (cfg : GridCfg) : GridState × CreateGridOutcome :=
  let st1 := { st with
    x_min := cfg.x_min, x_max := cfg.x_max
    y_min := cfg.y_min, y_max := cfg.y_max }
  if cfg.dx ≤ 0 ∨ cfg.dy ≤ 0 then (st1, CreateGridOutcome.invalidCellSize)
  else if st1.x_max ≤ st1.x_min ∨ st1.y_max ≤ st1.y_min then
    (st1, CreateGridOutcome.invalidRange)
  else
    let st2 := { st1 with
      nx := pyInt ((st1.x_max - st1.x_min) / cfg.dx)
      ny := pyInt ((st1.y_max - st1.y_min) / cfg.dy) }
    if st2.nx ≤ 0 ∨ st2.ny ≤ 0 then (st2, CreateGridOutcome.invalidGridSize)
    else (st2, CreateGridOutcome.gridEmitted st2.ny st2.nx)

/-- One rescaled point as built at lines 290-296 of the source. -/
structure RescaledPoint where
  x : ℚ
  y : ℚ
  id : Nat
  x_real : ℚ
  y_real : ℚ
deriving DecidableEq, Repr

/-- The per-track body of the rescaling loop (lines 274-296): linear map
into grid-index space followed by clamping to `[0, nx-1]` and
`[0, ny-1]`. -/
def mapTrack (st : GridState) (t : Track) : RescaledPoint :=
  let x_grid := (t.posX - st.x_min) / (st.x_max - st.x_min) * ((st.nx : ℚ) - 1)
  let y_grid := (t.posY - st.y_min) / (st.y_max - st.y_min) * ((st.ny : ℚ) - 1)
  { x := max 0 (min ((st.nx : ℚ) - 1) x_grid)
    y := max 0 (min ((st.ny : ℚ) - 1) y_grid)
    id := t.id
    x_real := t.posX
    y_real := t.posY }

/-- Observable outcome of `rescale_and_emit_points`. -/
inductive EmitResult where
  /-- an early `return` was taken: nothing emitted, no exception -/
  | noEmit
  /-- `(x_max - x_min)` or `(y_max - y_min)` is zero: Python raises
  `ZeroDivisionError` at the first surviving track, which propagates to
  the TLV loop's `except` handler -/
  | divByZero
  /-- the list was emitted on `radar_points_ready` -/
  | emitted (pts : List RescaledPoint)
deriving DecidableEq, Repr

/-- `rescale_and_emit_points` (lines 256-299): return early on an empty
target list, filter by `confidence >= 0.5`, return early if no target
survives or if no grid is configured (`nx == 0 or ny == 0`), otherwise
map every surviving track and emit the batch. -/
def rescale_and_emit_points (st : GridState) (targets : List Track) : EmitResult :=
  if targets.length = 0 then EmitResult.noEmit
  else
    let kept := targets.filter fun t => decide ((1 : ℚ) / 2 ≤ t.conf)
    if kept.length = 0 then EmitResult.noEmit
    else if st.nx = 0 ∨ st.ny = 0 then EmitResult.noEmit
    else if st.x_max = st.x_min ∨ st.y_max = st.y_min then EmitResult.divByZero
    else EmitResult.emitted (kept.map (mapTrack st))

/-- `tlv_header_decode` (lines 301-305): `struct.unpack('2I', data)`
succeeds exactly when `data` is 8 bytes long. -/
def tlv_header_decode (data : List Nat) : Option (Nat × Nat) :=
  if data.length = 8 then some (u32le_at data 0, u32le_at data 4) else none

/-- The TLV loop of `parse_standard_frame` (lines 194-222), iterating
`numTLVs` times from byte offset 40.  Returns the emitted point batches
in order together with a flag that is `true` iff the loop `break`s on a
TLV decode exception (a short TLV-header slice, or a
`ZeroDivisionError` escaping `rescale_and_emit_points`).  The payload
slice `frameData[offset+8 : offset+8+tlvLength]` silently truncates at
the end of `frameData`, exactly as Python slicing does. -/
def dispatchTlvs (st : GridState) (frameData : List Nat) :
    Nat → Nat → List (List RescaledPoint) × Bool
  | 0, _ => ([], false)
  | n + 1, offset =>
    match tlv_header_decode ((frameData.drop offset).take 8) with
    | none => ([], true)
    | some (tlvType, tlvLength) =>
      let tlvPayload := (frameData.drop (offset + 8)).take tlvLength
      if tlvType = 1010 then
        let r := parse_track_tlv tlvPayload tlvLength
        if 0 < r.1 then
          match rescale_and_emit_points st r.2 with
          | EmitResult.divByZero => ([], true)
          | EmitResult.noEmit => dispatchTlvs st frameData n (offset + 8 + tlvLength)
          | EmitResult.emitted pts =>
            let rest := dispatchTlvs st frameData n (offset + 8 + tlvLength)
            (pts :: rest.1, rest.2)
        else dispatchTlvs st frameData n (offset + 8 + tlvLength)
      else dispatchTlvs st frameData n (offset + 8 + tlvLength)

/-- Observable outcome of `parse_standard_frame` on one frame. -/
inductive FrameResult where
  /-- the 40-byte header could not be unpacked (`frameData` shorter than
  40 bytes); the frame is skipped -/
  | headerError
  /-- the TLV loop ran; `batches` lists the emitted point batches and
  `tlvAborted` records whether the loop broke on a TLV error -/
  | parsed (batches : List (List RescaledPoint)) (tlvAborted : Bool)
deriving DecidableEq, Repr

/-- `parse_standard_frame` (lines 180-222): unpack the 40-byte header
(`numTLVs` is the u32 at byte offset 32), then run the TLV loop. -/
def parse_standard_frame (st : GridState) (frameData : List Nat) : FrameResult :=
  if frameData.length < 40 then FrameResult.headerError
  else
    let numTLVs := u32le_at frameData 32
    let r := dispatchTlvs st frameData numTLVs 40
    FrameResult.parsed r.1 r.2

set_option autoImplicit false

set_option maxRecDepth 100000

/-- Approximate equality at two-decimal precision, the reading of the
`≈` sign used in the specification's end-to-end example. -/
def approxEq (a b : ℚ) : Prop := b - 1 / 100 ≤ a ∧ a ≤ b + 1 / 100

instance (a b : ℚ) : Decidable (approxEq a b) := by
  unfold approxEq; exact inferInstance

/-- A request violating one of the four directly-checked configuration
invariants (`dx > 0`, `dy > 0`, `xMax > xMin`, `yMax > yMin`). -/
def invalidCfgDirect (cfg : GridCfg) : Prop :=
  cfg.dx ≤ 0 ∨ cfg.dy ≤ 0 ∨ cfg.x_max ≤ cfg.x_min ∨ cfg.y_max ≤ cfg.y_min

instance (cfg : GridCfg) : Decidable (invalidCfgDirect cfg) := by
  unfold invalidCfgDirect; exact inferInstance

/-- A minimal valid frame: a bare 40-byte header whose `totalPacketLen`
field is 40 and which carries no TLVs. -/
def valid40 : List Nat :=
  MAGIC_WORD ++ [0, 0, 0, 0] ++ [40, 0, 0, 0] ++ List.replicate 24 0

/-- A buffer whose first 8 bytes are the marker pattern occurring as
incidental payload, followed by garbage in the `totalPacketLen`
position (decoding to 4294967295) and, later, the genuine valid frame
`valid40`. -/
def bufferC2 : List Nat :=
  MAGIC_WORD ++ [9, 9, 9, 9] ++ [255, 255, 255, 255] ++
  List.replicate 24 9 ++ valid40

/-- A buffer starting with the marker and a header whose
`totalPacketLen` field is 0. -/
def zeroLenBuf : List Nat := MAGIC_WORD ++ List.replicate 32 0

/-- The 112-byte track record of the end-to-end example: `id=7`,
`posX=3.0` (bytes `00 00 40 40`), `posY=50.0` (bytes `00 00 48 42`),
`confidence=0.9f` (bytes `66 66 66 3F`), all other fields zero. -/
def record5 : List Nat :=
  [7, 0, 0, 0] ++ [0, 0, 64, 64] ++ [0, 0, 72, 66] ++
  List.replicate 92 0 ++ [0, 0, 0, 0] ++ [102, 102, 102, 63]

/-- The end-to-end example frame: 40-byte header with
`totalPacketLen=160`, `numTLVs=1`, then one TLV of type 1010
(bytes `F2 03 00 00`) and length 112 holding `record5`. -/
def frame5 : List Nat :=
  MAGIC_WORD ++ [0, 0, 0, 0] ++ [160, 0, 0, 0] ++ List.replicate 16 0 ++
  [1, 0, 0, 0] ++ [0, 0, 0, 0] ++ [242, 3, 0, 0] ++ [112, 0, 0, 0] ++ record5

/-- The end-to-end example configuration request. -/
def cfg5 : GridCfg := ⟨-12, 12, 0, 120, 1, 5⟩

/-- The rescaled point the pipeline actually produces on the end-to-end
example: `gridX = 115/8 = 14.375`, `gridY = 115/12 = 9.58333...`. -/
def pt5 : RescaledPoint := ⟨115 / 8, 115 / 12, 7, 3, 50⟩

/-- A 112-byte record with `id=7`, `posX=posY=1.0`, `confidence=1.0`
(bytes `00 00 80 3F`), all other fields zero. -/
def record3 : List Nat :=
  [7, 0, 0, 0] ++ [0, 0, 128, 63] ++ [0, 0, 128, 63] ++
  List.replicate 92 0 ++ [0, 0, 0, 0] ++ [0, 0, 128, 63]

/-- A 160-byte frame (`totalPacketLen=160`, `numTLVs=1`) whose single
TLV of type 1010 declares `tlvLength = 150`: reading 150 payload bytes
from offset 48 would need 198 bytes, overrunning the 160-byte frame.
The truncated payload still contains the one full record `record3`
that the declared count `150 / 112 = 1` asks for. -/
def frame3 : List Nat :=
  MAGIC_WORD ++ [0, 0, 0, 0] ++ [160, 0, 0, 0] ++ List.replicate 16 0 ++
  [1, 0, 0, 0] ++ [0, 0, 0, 0] ++ [242, 3, 0, 0] ++ [150, 0, 0, 0] ++ record3

/-- A grid state for a configured 10x10 grid over `[0,10] x [0,10]`. -/
def st3 : GridState := ⟨0, 10, 0, 10, 10, 10⟩

/-- An active valid configuration used as the pre-state of an invalid
configuration request. -/
def st1a : GridState := ⟨0, 10, 0, 10, 10, 10⟩

/-- An invalid configuration request: `dx = 0`, with bounds different
from the previously active ones. -/
def cfgBad : GridCfg := ⟨100, 200, 0, 10, 0, 1⟩

/-- A track at position (5, 5) with confidence 1. -/
def trkC1 : Track := ⟨1, 5, 5, 0, 0, 0, 0, 0, 0, 0, 0, 1⟩

/-- A track with confidence exactly 0.5. -/
def trkHalf : Track := ⟨2, 1, 1, 0, 0, 0, 0, 0, 0, 0, 0, 1 / 2⟩

/-- A track with confidence 0.4999. -/
def trkLow : Track := ⟨3, 1, 1, 0, 0, 0, 0, 0, 0, 0, 0, 4999 / 10000⟩

/-- A track whose real-world position (-50, 100) lies outside the
configured `[0,10] x [0,10]` area of `st3`. -/
def trkOut : Track := ⟨4, -50, 100, 0, 0, 0, 0, 0, 0, 0, 0, 1⟩

/-- The clamped point `trkOut` maps to under `st3`. -/
def ptOut : RescaledPoint := ⟨0, 9, 4, -50, 100⟩

/-! Helper lemmas about the marker search and the synchronizer step. -/

/-- Where `findMarker` reports an index, the 8 bytes there are the
marker pattern. -/
theorem findMarker_isMarker : ∀ {bs : List Nat} {i : Nat},
    findMarker bs = some i → (bs.drop i).take 8 = MAGIC_WORD := by
  intro bs
  induction bs with
  | nil => intro i h; simp [findMarker] at h
  | cons b rest ih =>
    intro i h
    by_cases hm : isMarkerAt (b :: rest)
    · simp [findMarker, hm] at h
      subst h
      simpa [isMarkerAt] using hm
    · simp [findMarker, hm] at h
      obtain ⟨j, hj, hji⟩ := h
      subst hji
      simpa using ih hj

/-- A buffer whose first 8 bytes are the marker decodes to the expected
magic value. -/
theorem u64le_of_take8 {bs : List Nat} (h : bs.take 8 = MAGIC_WORD) :
    u64le bs = MAGIC_VALUE := by
  unfold u64le
  rw [h]
  decide

/-- A buffer beginning with the marker has its first occurrence at 0. -/
theorem findMarker_of_take8 {bs : List Nat} (h : bs.take 8 = MAGIC_WORD) :
    findMarker bs = some 0 := by
  cases bs with
  | nil => simp [List.take] at h; exact absurd h (by decide)
  | cons b rest => simp [findMarker, isMarkerAt, h]

/-- A buffer shorter than the 8-byte marker contains no occurrence. -/
theorem findMarker_none_of_short : ∀ {bs : List Nat}, bs.length < 8 →
    findMarker bs = none := by
  intro bs
  induction bs with
  | nil => intro _; rfl
  | cons b rest ih =>
    intro h
    have hm : isMarkerAt (b :: rest) = false := by
      have hlen : ((b :: rest).take 8).length < 8 := by
        simp only [List.length_take]
        omega
      apply beq_eq_false_iff_ne.mpr
      intro he
      rw [he] at hlen
      simp [MAGIC_WORD] at hlen
    have : rest.length < 8 := by simp at h; omega
    simp [findMarker, hm, ih this]

/-- With the marker at the front and fewer than 40 bytes, the step waits
for the header and leaves the buffer unchanged. -/
theorem syncStep_needHeader {b : List Nat} (h8 : b.take 8 = MAGIC_WORD)
    (hlen : b.length < 40) : syncStep b = (SyncOutcome.needHeader, b) := by
  unfold syncStep
  rw [findMarker_of_take8 h8]
  simp only [List.drop_zero]
  rw [if_pos (show b.length < HEADER_LEN by simpa [HEADER_LEN] using hlen)]

/-- With the marker at the front, at least 40 bytes, and a declared
`totalPacketLen` larger than the buffer, the step waits for the frame
and leaves the buffer unchanged. -/
theorem syncStep_needFrame {b : List Nat} (h8 : b.take 8 = MAGIC_WORD)
    (hlen : 40 ≤ b.length) (htpl : b.length < u32le_at b 12) :
    syncStep b = (SyncOutcome.needFrame, b) := by
  unfold syncStep
  rw [findMarker_of_take8 h8]
  simp only [List.drop_zero]
  rw [if_neg (show ¬ b.length < HEADER_LEN by simp only [HEADER_LEN]; omega)]
  rw [if_neg (by simp [u64le_of_take8 h8])]
  rw [if_pos htpl]

/-- With the marker at the front, at least 40 bytes, and the declared
`totalPacketLen` available, the step slices the frame off the front. -/
theorem syncStep_extract {b : List Nat} (h8 : b.take 8 = MAGIC_WORD)
    (hlen : 40 ≤ b.length) (htpl : u32le_at b 12 ≤ b.length) :
    syncStep b =
      (SyncOutcome.frame (b.take (u32le_at b 12)), b.drop (u32le_at b 12)) := by
  unfold syncStep
  rw [findMarker_of_take8 h8]
  simp only [List.drop_zero]
  rw [if_neg (show ¬ b.length < HEADER_LEN by simp only [HEADER_LEN]; omega)]
  rw [if_neg (by simp [u64le_of_take8 h8])]
  rw [if_neg (by omega : ¬ b.length < u32le_at b 12)]

/-- Two buffers sharing their first `off + k` bytes agree on the
`k`-byte slice at offset `off`. -/
theorem slice_of_append {p q : List Nat} {off k : Nat}
    (hk : off + k ≤ p.length) :
    ((p ++ q).drop off).take k = (p.drop off).take k := by
  rw [List.drop_append_of_le_length (by omega)]
  rw [List.take_append_of_le_length (by simp; omega)]

/-- A proper front part of a valid frame makes the synchronizer wait
without touching the buffer: it neither extracts a frame nor takes the
resynchronization path. -/
theorem syncStep_strictFront {F p q : List Nat} (hF : ValidFrame F)
    (happ : p ++ q = F) (hlt : p.length < F.length) :
    ∃ o, syncStep p = (o, p) ∧ o ≠ SyncOutcome.resync ∧
      ∀ f, o ≠ SyncOutcome.frame f := by
  obtain ⟨hmag, htpl, hlen40⟩ := hF
  by_cases h8 : p.length < 8
  · refine ⟨SyncOutcome.noMarker, ?_, by simp, by simp⟩
    unfold syncStep
    rw [findMarker_none_of_short h8]
    rw [if_neg (by omega)]
  · have hp8 : p.take 8 = MAGIC_WORD := by
      have : ((p ++ q).take 8) = p.take 8 :=
        List.take_append_of_le_length (by omega)
      rw [happ] at this
      rw [← this, hmag]
    by_cases h40 : p.length < 40
    · exact ⟨SyncOutcome.needHeader, syncStep_needHeader hp8 h40, by simp, by simp⟩
    · have htp : u32le_at p 12 = u32le_at F 12 := by
        unfold u32le_at
        rw [← happ, slice_of_append (by omega)]
      refine ⟨SyncOutcome.needFrame, ?_, by simp, by simp⟩
      exact syncStep_needFrame hp8 (by omega) (by rw [htp, htpl]; exact hlt)

/-- A complete valid frame at the front of the buffer is extracted
whole, leaving an empty buffer. -/
theorem syncStep_valid {F : List Nat} (hF : ValidFrame F) :
    syncStep F = (SyncOutcome.frame F, []) := by
  obtain ⟨hmag, htpl, hlen40⟩ := hF
  rw [syncStep_extract hmag hlen40 (by rw [htpl])]
  rw [htpl]
  simp

/-- Draining an empty buffer does nothing. -/
theorem drainBuffer_nil (n : Nat) : drainBuffer n [] = ([], []) := by
  cases n with
  | zero => rfl
  | succ m =>
    have h : syncStep [] = (SyncOutcome.noMarker, []) := by decide
    unfold drainBuffer
    rw [h]

/-- Draining a buffer on which the step waits returns the buffer
unchanged and extracts nothing. -/
theorem drainBuffer_waits {b : List Nat} {o : SyncOutcome}
    (hstep : syncStep b = (o, b)) (hr : o ≠ SyncOutcome.resync)
    (hf : ∀ f, o ≠ SyncOutcome.frame f) (n : Nat) :
    drainBuffer n b = ([], b) := by
  cases n with
  | zero => rfl
  | succ m =>
    unfold drainBuffer
    rw [hstep]
    cases o with
    | noMarker => rfl
    | needHeader => rfl
    | resync => exact absurd rfl hr
    | needFrame => rfl
    | frame f => exact absurd rfl (hf f)

/-- Draining a buffer holding exactly one valid frame extracts that
frame and empties the buffer. -/
theorem drainBuffer_valid {F : List Nat} (hF : ValidFrame F) (n : Nat) :
    drainBuffer (n + 1) F = ([F], []) := by
  unfold drainBuffer
  rw [syncStep_valid hF]
  simp [drainBuffer_nil]

/-- Feeding only empty chunks to an empty buffer produces nothing. -/
theorem feedChunks_empties : ∀ {chunks : List (List Nat)},
    (∀ c ∈ chunks, c = []) → feedChunks chunks [] = ([], []) := by
  intro chunks
  induction chunks with
  | nil => intro _; rfl
  | cons c rest ih =>
    intro h
    have hc : c = [] := h c (by simp)
    subst hc
    unfold feedChunks
    simp only [List.nil_append, List.length_nil]
    rw [drainBuffer_nil]
    rw [ih (fun d hd => h d (by simp [hd]))]
    rfl

/-- Feeding the remaining chunks of a valid frame to a buffer already
holding a proper front part of it extracts exactly that frame. -/
theorem feedChunks_front {F : List Nat} (hF : ValidFrame F) :
    ∀ (chunks : List (List Nat)) (p : List Nat),
      p ++ chunks.flatten = F → p.length < F.length →
      feedChunks chunks p = ([F], []) := by
  intro chunks
  induction chunks with
  | nil =>
    intro p happ hlt
    simp at happ
    rw [happ] at hlt
    exact absurd hlt (lt_irrefl _)
  | cons c rest ih =>
    intro p happ hlt
    have hb1 : (p ++ c) ++ rest.flatten = F := by
      simpa [List.append_assoc] using happ
    have hb1le : (p ++ c).length ≤ F.length := by
      rw [← hb1]; simp
    simp only [feedChunks]
    by_cases hcase : (p ++ c).length < F.length
    · obtain ⟨o, hstep, hr, hf⟩ := syncStep_strictFront hF hb1 hcase
      rw [drainBuffer_waits hstep hr hf]
      rw [ih (p ++ c) hb1 hcase]
      rfl
    · have heq : (p ++ c).length = F.length := by omega
      have hrest : rest.flatten = [] := by
        have hl := congrArg List.length hb1
        rw [List.length_append] at hl
        have : rest.flatten.length = 0 := by omega
        exact List.length_eq_zero.mp this
      have hpc : p ++ c = F := by
        rw [hrest] at hb1
        simpa using hb1
      rw [hpc]
      rw [drainBuffer_valid hF]
      rw [feedChunks_empties (List.flatten_eq_nil_iff.mp hrest)]
      rfl

/-- C6: whenever the byte-wise search finds the 8-byte marker pattern,
the little-endian u64 decoded from those bytes equals
0x0708050603040102, so the magic-mismatch branch that drops one byte
and retries (the ResyncEvent path) is unreachable: no iteration of the
synchronizer loop ever produces the resync outcome. -/
theorem c6_resync_unreachable :
    (∀ (b : List Nat) (i : Nat), findMarker b = some i →
      u64le (b.drop i) = MAGIC_VALUE) ∧
    ∀ b : List Nat, (syncStep b).1 ≠ SyncOutcome.resync := by
  constructor
  · intro b i h
    exact u64le_of_take8 (findMarker_isMarker h)
  · intro b
    unfold syncStep
    cases hfind : findMarker b with
    | none => simp
    | some i =>
      have hmag : u64le (b.drop i) = MAGIC_VALUE :=
        u64le_of_take8 (findMarker_isMarker hfind)
      simp only []
      by_cases h40 : (b.drop i).length < HEADER_LEN
      · rw [if_pos h40]
        simp
      · rw [if_neg h40]
        rw [if_neg (by simp [hmag])]
        by_cases htpl : (b.drop i).length < u32le_at (b.drop i) 12
        · rw [if_pos htpl]; simp
        · rw [if_neg htpl]; simp

/-- Witness for C6 at a concrete buffer: the marker found at index 0 of
`bufferC2` decodes to the magic value, and the step on `bufferC2` does
not resynchronize. -/
theorem c6_resync_unreachable_witness :
    u64le (bufferC2.drop 0) = MAGIC_VALUE ∧
    (syncStep bufferC2).1 ≠ SyncOutcome.resync :=
  ⟨c6_resync_unreachable.1 bufferC2 0 (by decide),
   c6_resync_unreachable.2 bufferC2⟩

/-- C7: on a buffer beginning with the valid marker and a header whose
`totalPacketLen` is 0, each extraction iteration slices an empty frame
and leaves the buffer unchanged, so no iteration ever consumes a byte
from the front: the loop makes no progress on that buffer. -/
theorem c7_zero_length_no_progress (b : List Nat)
    (h8 : b.take 8 = MAGIC_WORD) (h40 : 40 ≤ b.length)
    (htpl : u32le_at b 12 = 0) :
    syncStep b = (SyncOutcome.frame [], b) ∧ ∀ n, syncRun n b = b := by
  have hstep : syncStep b = (SyncOutcome.frame [], b) := by
    rw [syncStep_extract h8 h40 (by omega)]
    rw [htpl]
    simp
  refine ⟨hstep, ?_⟩
  intro n
  induction n with
  | zero => rfl
  | succ m ih =>
    show syncRun m (syncStep b).2 = b
    rw [hstep]
    exact ih

/-- Witness for C7: the concrete 40-byte buffer `zeroLenBuf` (marker
followed by an all-zero header) is a fixpoint of the synchronizer,
which extracts an empty frame from it forever. -/
theorem c7_zero_length_no_progress_witness :
    syncStep zeroLenBuf = (SyncOutcome.frame [], zeroLenBuf) ∧
    syncRun 3 zeroLenBuf = zeroLenBuf := by
  have h := c7_zero_length_no_progress zeroLenBuf (by decide) (by decide)
    (by decide)
  exact ⟨h.1, h.2 3⟩

/-- C2 counterexample: `bufferC2` contains the 8-byte marker pattern as
incidental payload bytes followed later by the genuinely valid frame
`valid40`, yet repeated extraction attempts never return any frame (in
particular not the valid one): the bytes after the incidental marker
decode to `totalPacketLen = 4294967295`, the step reports
"need more data" with the buffer unchanged, and — the magic check being
satisfied by the marker bytes themselves — the single-byte-slide resync
path is never entered. -/
theorem c2_false_marker_counterexample :
    ValidFrame valid40 ∧ neverExtracts bufferC2 := by
  refine ⟨by decide, ?_⟩
  have hstep : syncStep bufferC2 = (SyncOutcome.needFrame, bufferC2) := by
    decide
  intro n
  induction n with
  | zero => rfl
  | succ m ih =>
    show (match (syncStep bufferC2).1 with
          | SyncOutcome.frame f => [f]
          | _ => []) ++ syncFramesRun m (syncStep bufferC2).2 = []
    rw [hstep]
    simpa using ih

/-- C2 amended: an occurrence of the marker pattern always passes the
magic check (the resync path is not taken); the synchronizer instead
trusts the `totalPacketLen` decoded from the bytes following the
incidental marker, and when that garbage value exceeds the bytes
available the step reports `needFrame` and leaves the buffer unchanged,
so a genuine frame lying after the incidental marker is never reached. -/
theorem c2_false_marker_stalls (b : List Nat) (i : Nat)
    (hfind : findMarker b = some i) (h40 : 40 ≤ (b.drop i).length)
    (htpl : (b.drop i).length < u32le_at (b.drop i) 12) :
    syncStep b = (SyncOutcome.needFrame, b.drop i) := by
  have h8 : (b.drop i).take 8 = MAGIC_WORD := findMarker_isMarker hfind
  unfold syncStep
  rw [hfind]
  simp only []
  rw [if_neg (show ¬ (b.drop i).length < HEADER_LEN by
    simp only [HEADER_LEN]; omega)]
  rw [if_neg (by simp [u64le_of_take8 h8])]
  rw [if_pos htpl]

/-- Witness for the amended C2 at the concrete buffer `bufferC2`. -/
theorem c2_false_marker_stalls_witness :
    syncStep bufferC2 = (SyncOutcome.needFrame, bufferC2.drop 0) :=
  c2_false_marker_stalls bufferC2 0 (by decide) (by decide) (by decide)

/-- C10: feeding a valid frame's bytes to the synchronizer split into
arbitrary chunks (including one byte at a time) yields exactly one
extracted frame, bit-identical to the frame extracted when the same
bytes arrive in a single delivery. -/
theorem c10_partial_delivery (F : List Nat) (chunks : List (List Nat))
    (hF : ValidFrame F) (hjoin : chunks.flatten = F) :
    feedChunks chunks [] = ([F], []) ∧ feedChunks [F] [] = ([F], []) := by
  have hpos : 0 < F.length := by
    obtain ⟨-, -, h40⟩ := hF
    omega
  constructor
  · exact feedChunks_front hF chunks [] (by simpa using hjoin) (by simpa using hpos)
  · exact feedChunks_front hF [F] [] (by simp) (by simpa using hpos)

/-- Witness for C10: the 40-byte valid frame `valid40` delivered one
byte at a time is extracted exactly once, identically to whole
delivery. -/
theorem c10_partial_delivery_witness :
    feedChunks (valid40.map fun b => [b]) [] = ([valid40], []) ∧
    feedChunks [valid40] [] = ([valid40], []) :=
  c10_partial_delivery valid40 (valid40.map fun b => [b]) (by decide)
    (by decide)

unseal Rat.add Rat.sub Rat.mul Rat.inv in
/-- C1 counterexample: the invalid request `cfgBad` (`dx = 0`) against
the active configuration `st1a` is rejected, yet the stored bounds are
overwritten with the requested values before validation runs, and a
subsequent `rescale_and_emit_points` call on the same track no longer
behaves as before the invalid request. -/
theorem c1_atomicity_counterexample :
    (create_grid st1a cfgBad).2 = CreateGridOutcome.invalidCellSize ∧
    (create_grid st1a cfgBad).1 ≠ st1a ∧
    rescale_and_emit_points (create_grid st1a cfgBad).1 [trkC1] ≠
      rescale_and_emit_points st1a [trkC1] := by
  decide

/-- C1 amended: a request violating any configuration invariant is
rejected (no grid is emitted), and for the four directly-checked
invariants (`dx <= 0`, `dy <= 0`, `xMax <= xMin`, `yMax <= yMin`) the
derived fields `nx`, `ny` keep their previous values — but the bounds
`x_min, x_max, y_min, y_max` are overwritten with the requested values
before validation, so subsequent `mapTracks` calls may behave
differently from before the invalid request (and a request failing only
the derived `nx > 0`/`ny > 0` check additionally overwrites `nx` and
`ny`). -/
theorem c1_invalid_cfg_rejected_but_bounds_overwritten
    (st : GridState) (cfg : GridCfg)
    (h : invalidCfgDirect cfg ∨
      pyInt ((cfg.x_max - cfg.x_min) / cfg.dx) ≤ 0 ∨
      pyInt ((cfg.y_max - cfg.y_min) / cfg.dy) ≤ 0) :
    (∀ a b : Int, (create_grid st cfg).2 ≠ CreateGridOutcome.gridEmitted a b) ∧
    (create_grid st cfg).1.x_min = cfg.x_min ∧
    (create_grid st cfg).1.x_max = cfg.x_max ∧
    (create_grid st cfg).1.y_min = cfg.y_min ∧
    (create_grid st cfg).1.y_max = cfg.y_max ∧
    (invalidCfgDirect cfg →
      (create_grid st cfg).1.nx = st.nx ∧ (create_grid st cfg).1.ny = st.ny) := by
  unfold create_grid invalidCfgDirect at *
  by_cases h1 : cfg.dx ≤ 0 ∨ cfg.dy ≤ 0
  · rw [if_pos h1]
    simp
  · rw [if_neg h1]
    by_cases h2 : cfg.x_max ≤ cfg.x_min ∨ cfg.y_max ≤ cfg.y_min
    · rw [if_pos h2]
      simp
    · rw [if_neg h2]
      have h3 : pyInt ((cfg.x_max - cfg.x_min) / cfg.dx) ≤ 0 ∨
          pyInt ((cfg.y_max - cfg.y_min) / cfg.dy) ≤ 0 := by
        rcases h with h | h | h
        · exact absurd h (by tauto)
        · exact Or.inl h
        · exact Or.inr h
      rw [if_pos h3]
      refine ⟨by simp, rfl, rfl, rfl, rfl, ?_⟩
      intro hd
      exact absurd hd (by tauto)

/-- Witness for the amended C1 at the concrete invalid request
`cfgBad` over the active configuration `st1a`. -/
theorem c1_invalid_cfg_rejected_witness :
    (∀ a b : Int, (create_grid st1a cfgBad).2 ≠ CreateGridOutcome.gridEmitted a b) ∧
    (create_grid st1a cfgBad).1.x_min = cfgBad.x_min ∧
    (create_grid st1a cfgBad).1.x_max = cfgBad.x_max ∧
    (create_grid st1a cfgBad).1.y_min = cfgBad.y_min ∧
    (create_grid st1a cfgBad).1.y_max = cfgBad.y_max ∧
    (invalidCfgDirect cfgBad →
      (create_grid st1a cfgBad).1.nx = st1a.nx ∧
      (create_grid st1a cfgBad).1.ny = st1a.ny) :=
  c1_invalid_cfg_rejected_but_bounds_overwritten st1a cfgBad
    (Or.inl (by decide))

unseal Rat.add Rat.sub Rat.mul Rat.inv in
/-- C3 counterexample: in `frame3` the single TLV declares
`tlvLength = 150`, which would read 38 bytes past the frame's declared
160-byte length; the dispatcher nevertheless slices the silently
truncated payload, hands it to the track decoder, and emits the decoded
point — no decode error is raised and TLV processing is not aborted. -/
theorem c3_tlv_overrun_counterexample :
    u32le_at frame3 44 = 150 ∧ frame3.length = 160 ∧
    parse_standard_frame st3 frame3 =
      FrameResult.parsed [[⟨9 / 10, 9 / 10, 7, 1, 1⟩]] false := by
  refine ⟨by decide, by decide, by decide⟩

/-- C3 amended: the dispatcher never compares `tlvLength` against the
frame's declared length; an overrunning TLV's payload is silently
truncated by slicing and dispatched normally.  The overrun surfaces as
a decode error only when a subsequent TLV's 8-byte header lies past the
end of the frame data, in which case the remaining TLVs of that frame
are aborted (frames are processed independently, so the next frame
proceeds normally). -/
theorem c3_short_tlv_header_aborts (st : GridState) (frameData : List Nat)
    (offset n : Nat) (h : frameData.length < offset + 8) :
    dispatchTlvs st frameData (n + 1) offset = ([], true) := by
  have hdec : tlv_header_decode ((frameData.drop offset).take 8) = none := by
    unfold tlv_header_decode
    rw [if_neg]
    simp only [List.length_take, List.length_drop]
    omega
  unfold dispatchTlvs
  rw [hdec]

/-- Witness for the amended C3: after `frame3`'s overrunning TLV the
offset stands at 198, past the 160-byte frame, so one more TLV
iteration would abort with a TLV error. -/
theorem c3_short_tlv_header_aborts_witness :
    dispatchTlvs st3 frame3 1 198 = ([], true) :=
  c3_short_tlv_header_aborts st3 frame3 198 0 (by decide)

/-- Fewer bytes than `112 * n` make the `n`-record decode loop fail. -/
theorem trackRecordsGo_fails : ∀ (n : Nat) (data : List Nat),
    data.length < 112 * n → (trackRecordsGo n data).1 = false := by
  intro n
  induction n with
  | zero => intro data h; omega
  | succ m ih =>
    intro data h
    unfold trackRecordsGo
    by_cases hshort : data.length < 112
    · rw [if_pos hshort]
    · rw [if_neg hshort]
      simp only []
      apply ih
      simp only [List.length_drop]
      omega

unseal Rat.add Rat.sub Rat.mul Rat.inv in
/-- C4 counterexample: a track-list TLV declaring `tlvLength = 224`
(expected count `224 / 112 = 2`) over a payload holding exactly one
full record decodes that first record and then fails on the second —
but `parse_track_tlv` reports 0 records decoded, not the 1 the claim
requires, discarding the successfully decoded prefix from the count. -/
theorem c4_truncation_counterexample :
    record3.length = 112 ∧ 224 / 112 = 2 ∧
    (parse_track_tlv record3 224).1 = 0 ∧
    (parse_track_tlv record3 224).1 ≠ 1 ∧
    (parse_track_tlv record3 224).2.length = 1 := by
  refine ⟨by decide, by decide, by decide, by decide, by decide⟩

/-- C4 amended: when the `k`-th 112-byte record cannot be fully decoded
from the remaining bytes, `parse_track_tlv` reports 0 as the number of
records decoded (the source's `return 0, targets`), regardless of how
many records were decoded before the failure; the dispatcher then
treats the TLV as containing no targets. -/
theorem c4_truncated_payload_reports_zero (tlvData : List Nat)
    (tlvLength : Nat) (h : tlvData.length < 112 * (tlvLength / 112)) :
    (parse_track_tlv tlvData tlvLength).1 = 0 := by
  unfold parse_track_tlv
  simp only []
  rw [trackRecordsGo_fails (tlvLength / 112) tlvData h]
  simp

/-- Witness for the amended C4 at the concrete truncated payload. -/
theorem c4_truncated_payload_reports_zero_witness :
    (parse_track_tlv record3 224).1 = 0 :=
  c4_truncated_payload_reports_zero record3 224 (by decide)

unseal Rat.add Rat.sub Rat.mul Rat.inv in
/-- C5 counterexample: on the end-to-end example (frame `frame5` under
the configuration produced by `cfg5`), the pipeline emits exactly one
point, but its `gridX` is `115/8 = 14.375`, not approximately 17.26 as
the claim states: `((3 - (-12)) / (12 - (-12))) * (24 - 1) = 14.375`. -/
theorem c5_end_to_end_counterexample :
    parse_standard_frame (create_grid initState cfg5).1 frame5 =
      FrameResult.parsed [[pt5]] false ∧
    pt5.x = 115 / 8 ∧ ¬ approxEq pt5.x (1726 / 100) := by
  refine ⟨by decide, by decide, by decide⟩

unseal Rat.add Rat.sub Rat.mul Rat.inv in
/-- C5 amended: the end-to-end example (header with `numTLVs = 1`, one
TLV of type 1010 and length 112 holding a record with id 7, posX 3.0,
posY 50.0, confidence 0.9, under the accepted configuration
xMin = -12, xMax = 12, yMin = 0, yMax = 120, dx = 1, dy = 5, giving
nx = ny = 24) emits exactly one rescaled point with id 7,
gridX = 115/8 = 14.375, gridY = 115/12 ≈ 9.58 (within 0.01 of the
stated 9.59), realX 3.0 and realY 50.0. -/
theorem c5_end_to_end_example :
    (create_grid initState cfg5).2 = CreateGridOutcome.gridEmitted 24 24 ∧
    parse_standard_frame (create_grid initState cfg5).1 frame5 =
      FrameResult.parsed [[pt5]] false ∧
    pt5 = ⟨115 / 8, 115 / 12, 7, 3, 50⟩ ∧
    approxEq pt5.y (959 / 100) := by
  refine ⟨by decide, by decide, by decide, by decide⟩

/-- C8: with a configured grid and non-degenerate bounds, the mapper
emits exactly the tracks whose confidence is at least 0.5 (each mapped
by `mapTrack`), and emits nothing when no track passes the filter: a
track is kept if and only if `confidence >= 0.5`. -/
theorem c8_confidence_filter (st : GridState) (ts : List Track)
    (hnx : ¬(st.nx = 0 ∨ st.ny = 0))
    (hdeg : ¬(st.x_max = st.x_min ∨ st.y_max = st.y_min)) :
    rescale_and_emit_points st ts =
      if (ts.filter fun t => decide ((1 : ℚ) / 2 ≤ t.conf)).length = 0 then
        EmitResult.noEmit
      else
        EmitResult.emitted
          ((ts.filter fun t => decide ((1 : ℚ) / 2 ≤ t.conf)).map
            (mapTrack st)) := by
  unfold rescale_and_emit_points
  by_cases hts : ts.length = 0
  · have : ts = [] := List.length_eq_zero.mp hts
    subst this
    simp
  · rw [if_neg hts]
    simp only []
    by_cases hkept : (ts.filter fun t => decide ((1 : ℚ) / 2 ≤ t.conf)).length = 0
    · rw [if_pos hkept, if_pos hkept]
    · rw [if_neg hkept, if_neg hkept, if_neg hnx, if_neg hdeg]

unseal Rat.add Rat.sub Rat.mul Rat.inv in
/-- Witness for C8 at the boundary: of two tracks with confidence
exactly 0.5 and 0.4999, only the first is kept and mapped. -/
theorem c8_confidence_filter_witness :
    rescale_and_emit_points st3 [trkHalf, trkLow] =
      EmitResult.emitted [mapTrack st3 trkHalf] := by
  rw [c8_confidence_filter st3 [trkHalf, trkLow] (by decide) (by decide)]
  decide

/-- The clamped coordinates produced by `mapTrack` lie inside
`[0, nx-1] x [0, ny-1]` whenever the grid extents are positive. -/
theorem mapTrack_bounds (st : GridState) (t : Track)
    (hnx : 0 < st.nx) (hny : 0 < st.ny) :
    0 ≤ (mapTrack st t).x ∧ (mapTrack st t).x ≤ (st.nx : ℚ) - 1 ∧
    0 ≤ (mapTrack st t).y ∧ (mapTrack st t).y ≤ (st.ny : ℚ) - 1 := by
  have hnx1 : (1 : ℚ) ≤ (st.nx : ℚ) := by exact_mod_cast hnx
  have hny1 : (1 : ℚ) ≤ (st.ny : ℚ) := by exact_mod_cast hny
  unfold mapTrack
  refine ⟨le_max_left _ _, ?_, le_max_left _ _, ?_⟩
  · exact max_le (by linarith) (min_le_left _ _)
  · exact max_le (by linarith) (min_le_left _ _)

/-- C9: every point of an emitted batch has grid coordinates clamped to
`[0, nx-1] x [0, ny-1]` — never negative and never reaching the grid
extent — even when the track's real-world position lies outside the
configured area. -/
theorem c9_rescale_clamp (st : GridState) (ts : List Track)
    (pts : List RescaledPoint) (hnx : 0 < st.nx) (hny : 0 < st.ny)
    (h : rescale_and_emit_points st ts = EmitResult.emitted pts) :
    ∀ p ∈ pts, 0 ≤ p.x ∧ p.x ≤ (st.nx : ℚ) - 1 ∧
      0 ≤ p.y ∧ p.y ≤ (st.ny : ℚ) - 1 := by
  unfold rescale_and_emit_points at h
  by_cases hts : ts.length = 0
  · rw [if_pos hts] at h
    exact absurd h (by simp)
  · rw [if_neg hts] at h
    simp only [] at h
    by_cases hkept : (ts.filter fun t => decide ((1 : ℚ) / 2 ≤ t.conf)).length = 0
    · rw [if_pos hkept] at h
      exact absurd h (by simp)
    · rw [if_neg hkept] at h
      rw [if_neg (by omega : ¬(st.nx = 0 ∨ st.ny = 0))] at h
      by_cases hdeg : st.x_max = st.x_min ∨ st.y_max = st.y_min
      · rw [if_pos hdeg] at h
        exact absurd h (by simp)
      · rw [if_neg hdeg] at h
        have hpts : pts =
            (ts.filter fun t => decide ((1 : ℚ) / 2 ≤ t.conf)).map
              (mapTrack st) := by
          cases h
          rfl
        intro p hp
        rw [hpts] at hp
        obtain ⟨t, -, ht⟩ := List.mem_map.mp hp
        rw [← ht]
        exact mapTrack_bounds st t hnx hny

unseal Rat.add Rat.sub Rat.mul Rat.inv in
/-- Witness for C9: the track `trkOut` at (-50, 100), far outside the
configured `[0,10] x [0,10]` area of `st3`, is emitted as `ptOut`
with coordinates clamped into `[0, 9] x [0, 9]`. -/
theorem c9_rescale_clamp_witness :
    0 ≤ ptOut.x ∧ ptOut.x ≤ (st3.nx : ℚ) - 1 ∧
    0 ≤ ptOut.y ∧ ptOut.y ≤ (st3.ny : ℚ) - 1 :=
  c9_rescale_clamp st3 [trkOut] [ptOut] (by decide) (by decide)
    (by decide) ptOut (by simp)
